import Mathlib

/-!
Verification development for the XBVR REST-API helper scripts, centred on the
JAV-identifier normalization module of `attempt-jav-file-match.py`.

Python strings are embedded as lists of Unicode code points (`List Nat`).
Only the ASCII behaviour of the Python string methods is modelled, which is
the range exercised by the identifier parser (`[a-z]`, `[0-9]`, `[-_.]`,
whitespace in the `re` pattern are all ASCII classes up to `re.IGNORECASE`).
-/

/-- A Python string, as its list of code points. -/
abbrev PyStr := List Nat

/-- Code points of a Lean string literal, for writing concrete Python strings. -/
def pyOfString (s : String) : PyStr := s.data.map Char.toNat

/-- ASCII upper-case letter `A`-`Z`. -/
def isAsciiUpper (n : Nat) : Bool := decide (65 ≤ n ∧ n ≤ 90)

/-- ASCII lower-case letter `a`-`z`. -/
def isAsciiLower (n : Nat) : Bool := decide (97 ≤ n ∧ n ≤ 122)

/-- The character class `[a-z]` under `re.IGNORECASE`: any ASCII letter. -/
def isLetterCp (n : Nat) : Bool := isAsciiUpper n || isAsciiLower n

/-- The character class `[0-9]`. -/
def isDigitCp (n : Nat) : Bool := decide (48 ≤ n ∧ n ≤ 57)

/-- The character class `\s` (ASCII part): space, tab, newline, CR, VT, FF. -/
def isSpaceCp (n : Nat) : Bool :=
  decide (n = 32 ∨ n = 9 ∨ n = 10 ∨ n = 13 ∨ n = 11 ∨ n = 12)

/-- The separator class `[\-_\.]` of `PAT_JAV_ID`: hyphen, underscore, period. -/
def isSepCp (n : Nat) : Bool := decide (n = 45 ∨ n = 95 ∨ n = 46)

/-- `str.upper` on one code point (ASCII). -/
def upperCp (n : Nat) : Nat := if 97 ≤ n ∧ n ≤ 122 then n - 32 else n

/-- `str.lower` on one code point (ASCII). -/
def lowerCp (n : Nat) : Nat := if 65 ≤ n ∧ n ≤ 90 then n + 32 else n

/-- `str.upper()`. -/
def pyUpper (l : PyStr) : PyStr := l.map upperCp

/-- `str.lower()`. -/
def pyLower (l : PyStr) : PyStr := l.map lowerCp

/-- `str.strip()`: drop whitespace from both ends. -/
def pyStrip (l : PyStr) : PyStr :=
  ((l.dropWhile isSpaceCp).reverse.dropWhile isSpaceCp).reverse

/-- `str.lstrip("0")`: drop leading `'0'` (code point 48) characters. -/
def lstripZeros (l : PyStr) : PyStr := l.dropWhile (· == 48)

/-- `str.zfill(w)`: left-pad with `'0'` up to width `w`; a leading sign
(`+`/`-`, code points 43/45) stays in front of the inserted zeros. -/
def pyZfill (w : Nat) (l : PyStr) : PyStr :=
  if w ≤ l.length then l
  else
    match l with
    | [] => List.replicate w 48
    | c :: rest =>
      if c = 43 ∨ c = 45 then c :: (List.replicate (w - l.length) 48 ++ rest)
      else List.replicate (w - l.length) 48 ++ l

/-- The `JavId` dataclass: a studio code and a scene number.
Dataclass equality compares the two stored fields. -/
structure JavId where
  studio_code : PyStr
  scene_code : PyStr
deriving DecidableEq

/-- The `JavId` constructor together with `JavId.__post_init__`:
`studio_code.strip().upper()`, `scene_code.strip().lstrip("0").zfill(3)`,
and the one-off alias rewriting `"DSVR"` to `"3DSVR"`. -/
def JavId.make (studio_code scene_code : PyStr) : JavId :=
  let sc := pyUpper (pyStrip studio_code)
  { studio_code := if sc = pyOfString "DSVR" then pyOfString "3DSVR" else sc
    scene_code := pyZfill 3 (lstripZeros (pyStrip scene_code)) }

/-- `JavId.as_content_id`: FANZA Content-ID form, with the `"13DSVR"` prefix
substitution for the alias case and the scene number re-padded to 5 digits. -/
def JavId.as_content_id (j : JavId) : PyStr :=
  let studio := if j.studio_code = pyOfString "3DSVR" then pyOfString "13DSVR"
                else j.studio_code
  pyUpper studio ++ pyZfill 5 (lstripZeros (pyUpper j.scene_code))

/-- `JavId.as_dvd_id`: DVD-ID (display) form, `studio + "-" + scene`, with the
scene number re-padded to 4 digits in the alias case and 3 otherwise. -/
def JavId.as_dvd_id (j : JavId) : PyStr :=
  let scene := if j.studio_code = pyOfString "3DSVR"
               then pyZfill 4 (lstripZeros (pyUpper j.scene_code))
               else pyZfill 3 (lstripZeros (pyUpper j.scene_code))
  pyUpper j.studio_code ++ 45 :: scene

/-- `JavId.id_formats`: the list `[as_content_id, as_dvd_id]`. -/
def JavId.id_formats (j : JavId) : List PyStr := [j.as_content_id, j.as_dvd_id]

/-- `JavId.__str__` returns the DVD-ID form. -/
def JavId.pyStr (j : JavId) : PyStr := j.as_dvd_id

/-- `JavId.__hash__` is `hash(str(self))`: the interpreter's string hash
(an arbitrary function `strHash`) applied to the DVD-ID form. -/
def JavId.pyHash (strHash : PyStr → Int) (j : JavId) : Int := strHash j.pyStr

/-! ### The regex search of `PAT_JAV_ID`

`PAT_JAV_ID = (?<![a-z])([a-z]{4,6})\s*[\-_\.]*\s*([0-9]{3,6})`, `re.I`.

`re.search` tries each start position left to right.  At a given position the
lookbehind requires the previous character not to be a letter; the greedy
`[a-z]{4,6}` can only succeed by taking the whole maximal letter run there
(taking fewer leaves a letter next, which neither the separator chain nor
`[0-9]` accepts), so a run shorter than 4 or longer than 6 fails; the greedy
separator chain `\s*[\-_\.]*\s*` reaches a digit at exactly one end position,
the maximal-munch one, because its character classes are disjoint from digits;
and the greedy `[0-9]{3,6}` takes the first `min(run, 6)` digits. -/

/-- End of the separator chain `\s*[\-_\.]*\s*`: maximal munch of whitespace,
then separators, then whitespace. -/
def sepChainEnd (l : PyStr) : PyStr :=
  ((l.dropWhile isSpaceCp).dropWhile isSepCp).dropWhile isSpaceCp

/-- The lookbehind `(?<![a-z])`: blocked when the previous character is a letter. -/
def blockedBy : Option Nat → Bool
  | some c => isLetterCp c
  | none => false

/-- Attempt a match of `PAT_JAV_ID` anchored at the current position, given the
previous character.  Returns the two capture groups on success. -/
def tryMatchAt (prev : Option Nat) (l : PyStr) : Option (PyStr × PyStr) :=
  if blockedBy prev then none
  else if 4 ≤ (l.takeWhile isLetterCp).length ∧ (l.takeWhile isLetterCp).length ≤ 6 then
    if 3 ≤ ((sepChainEnd (l.dropWhile isLetterCp)).takeWhile isDigitCp).length then
      some (l.takeWhile isLetterCp,
            ((sepChainEnd (l.dropWhile isLetterCp)).takeWhile isDigitCp).take 6)
    else none
  else none

/-- `PAT_JAV_ID.search`: scan start positions left to right, returning the
capture groups of the first successful match. -/
def searchJavId : Option Nat → PyStr → Option (PyStr × PyStr)
  | _, [] => none
  | prev, c :: rest =>
    match tryMatchAt prev (c :: rest) with
    | some r => some r
    | none => searchJavId (some c) rest

/-- `JavId.from_string`: search for `PAT_JAV_ID`; on failure the Python code
raises `ValueError` (modelled as `none`); on success build
`JavId(studio_code=group(1).upper(), scene_code=group(2).lstrip("0"))`. -/
def JavId.from_string (jav_id : PyStr) : Option JavId :=
  match searchJavId none jav_id with
  | none => none
  | some (g1, g2) => some (JavId.make (pyUpper g1) (lstripZeros g2))

/-! ### File records, scene records and the batch-processing flow -/

/-- An XBVR file-info record, restricted to the fields the script reads. -/
structure FileInfo where
  id : Nat
  filename : PyStr
deriving DecidableEq

/-- An XBVR scene-info record, restricted to the fields the script reads. -/
structure SceneInfo where
  scene_id : PyStr
  title : PyStr
deriving DecidableEq

/-- `get_scene_for_jav_id`: walk the candidate scenes; a candidate whose
`scene_id` fails to parse makes the function return `None` at once (the
`except ValueError` branch is `return None`); a candidate parsing to an equal
`JavId` is returned; otherwise continue. -/
def get_scene_for_jav_id (jav_id : JavId) : List SceneInfo → Option SceneInfo
  | [] => none
  | scene_info :: rest =>
    match JavId.from_string scene_info.scene_id with
    | none => none
    | some sid => if sid = jav_id then some scene_info else get_scene_for_jav_id jav_id rest

/-- The czech-prefix false-positive check of `filter_unmatched_files_by_jav_id`:
`jav_id.studio_code.lower().startswith("czech")`. -/
def isCzechFalsePositive (jav_id : JavId) : Bool :=
  (pyOfString "czech").isPrefixOf (pyLower jav_id.studio_code)

/-- Appending a file under a `JavId` key in the grouping dict: append to the
existing entry if the key is present (dataclass equality), else add a new
entry at the end. -/
def addFile : List (JavId × List FileInfo) → JavId → FileInfo → List (JavId × List FileInfo)
  | [], j, f => [(j, [f])]
  | (k, v) :: rest, j, f =>
    if k = j then (k, v ++ [f]) :: rest else (k, v) :: addFile rest j f

/-- The grouping loop of `filter_unmatched_files_by_jav_id`: skip files whose
filename does not parse, skip czech-prefixed false positives, group the rest. -/
def filterLoop (acc : List (JavId × List FileInfo)) :
    List FileInfo → List (JavId × List FileInfo)
  | [] => acc
  | f :: rest =>
    match JavId.from_string f.filename with
    | none => filterLoop acc rest
    | some jav_id =>
      if isCzechFalsePositive jav_id then filterLoop acc rest
      else filterLoop (addFile acc jav_id f) rest

/-- `filter_unmatched_files_by_jav_id`: group unmatched files by parsed `JavId`. -/
def filter_unmatched_files_by_jav_id (unmatched_files_info : List FileInfo) :
    List (JavId × List FileInfo) :=
  filterLoop [] unmatched_files_info

/-- Association-list lookup for the grouping dict, by dataclass equality. -/
def lookupJ (j : JavId) : List (JavId × List FileInfo) → Option (List FileInfo)
  | [] => none
  | (k, v) :: rest => if k = j then some v else lookupJ j rest

/-- The `JavScrapers` enum.  `JAVLAND` is commented out in the source. -/
inductive JavScrapers
  | JAVDATABASE
  | R18DEV
  | JAVLIBRARY
deriving DecidableEq

/-- The `StrEnum` value of each scraper. -/
def JavScrapers.value : JavScrapers → PyStr
  | .JAVDATABASE => pyOfString "javdatabase"
  | .R18DEV => pyOfString "r18d"
  | .JAVLIBRARY => pyOfString "javlibrary"

/-- Iteration order of `iter(JavScrapers)`: enum definition order. -/
def javScrapersInOrder : List JavScrapers :=
  [JavScrapers.JAVDATABASE, JavScrapers.R18DEV, JavScrapers.JAVLIBRARY]

/-- The query string selected by `scrape_jav_scene`: the Content-ID form for
the `R18DEV` scraper, the DVD-ID form for every other scraper. -/
def scrapeQuery (jav_id : JavId) (scraper : JavScrapers) : PyStr :=
  if scraper = JavScrapers.R18DEV then jav_id.as_content_id else jav_id.as_dvd_id

/-- The module-level configuration constant `JAV_SCRAPE_TIMEOUT` (default 12),
documented as the number of seconds to wait after triggering a scrape. -/
def JAV_SCRAPE_TIMEOUT : Nat := 12

/-- Seconds actually slept by `scrape_jav_scene` after posting the scrape
request: the literal `time.sleep(10)`; the function body never reads the
configured timeout, so the result ignores the `cfgTimeout` parameter. -/
def scrape_sleep_seconds : Nat → Nat := fun _cfgTimeout => 10

/-- The XBVR REST API as seen by the script: each call either yields a value
(HTTP 200 with JSON body) or raises (any other status), modelled by `Except`.
`searchScenes` abstracts `get_scenes_for_id` (including its empty-results
normalization), keyed by the query identifier string. -/
structure XbvrApi where
  listFiles : Except String (List FileInfo)
  searchScenes : PyStr → Except String (List SceneInfo)
  scrapeScene : JavScrapers → PyStr → Except String Unit
  matchFileCall : Nat → PyStr → Except String Unit

/-- `for jid in jav_id.id_formats(): potential_scenes.extend(get_scenes_for_id(jid))`. -/
def collectScenesList (api : XbvrApi) : List PyStr → Except String (List SceneInfo)
  | [] => .ok []
  | q :: qs => do
    let s ← api.searchScenes q
    let rest ← collectScenesList api qs
    pure (s ++ rest)

/-- Gather the candidate scenes for a `JavId` over all its ID formats. -/
def collectScenes (api : XbvrApi) (jav_id : JavId) : Except String (List SceneInfo) :=
  collectScenesList api jav_id.id_formats

/-- `match_file_to_scene` for each grouped file, in order; any non-200
response raises. -/
def matchFiles (api : XbvrApi) (scene : SceneInfo) : List FileInfo → Except String Unit
  | [] => .ok ()
  | f :: fs => do
    let _ ← api.matchFileCall f.id scene.scene_id
    matchFiles api scene fs

/-- One log entry per `scrape_jav_scene` call: the scraper, the query string
sent, and the seconds slept afterwards. -/
abbrev ScrapeLog := List (JavScrapers × PyStr × Nat)

/-- The `while not jav_scene_info` loop: take the next scraper, trigger it
(sleeping afterwards inside `scrape_jav_scene`), re-collect candidate scenes
and re-attempt the lookup; stop at the first success or when the scrapers are
exhausted. -/
def scrapeLoop (cfg : Nat) (api : XbvrApi) (jav_id : JavId) :
    List JavScrapers → ScrapeLog → Except String (Option SceneInfo × ScrapeLog)
  | [], log => .ok (none, log)
  | s :: rest, log => do
    let q := scrapeQuery jav_id s
    let _ ← api.scrapeScene s q
    let log' := log ++ [(s, q, scrape_sleep_seconds cfg)]
    let scenes ← collectScenes api jav_id
    match get_scene_for_jav_id jav_id scenes with
    | some sc => .ok (some sc, log')
    | none => scrapeLoop cfg api jav_id rest log'

/-- The body of the `for jav_id, file_infos in unmatched_by_jav_id.items()`
loop: initial lookup, then the scraper loop, then either match every grouped
file to the found scene (`true`, counted good) or report failure (`false`,
counted bad).  No exception is caught here: any raise propagates. -/
def processOne (cfg : Nat) (api : XbvrApi) (jav_id : JavId) (file_infos : List FileInfo)
    (log : ScrapeLog) : Except String (Bool × ScrapeLog) := do
  let scenes ← collectScenes api jav_id
  match get_scene_for_jav_id jav_id scenes with
  | some sc => do
    let _ ← matchFiles api sc file_infos
    pure (true, log)
  | none => do
    let r ← scrapeLoop cfg api jav_id javScrapersInOrder log
    match r.1 with
    | some sc => do
      let _ ← matchFiles api sc file_infos
      pure (true, r.2)
    | none => pure (false, r.2)

/-- Outcome of a run of the `__main__` block. -/
inductive MainResult
  | configExit (code : Nat)
  | completed (good bad : Nat) (log : ScrapeLog)
  | crashed (msg : String)
deriving DecidableEq

/-- Iterate the grouped identifiers; an uncaught exception from a per-item
call terminates the whole run (`crashed`). -/
def runGroups (cfg : Nat) (api : XbvrApi) :
    Nat → Nat → ScrapeLog → List (JavId × List FileInfo) → MainResult
  | good, bad, log, [] => .completed good bad log
  | good, bad, log, (j, fs) :: rest =>
    match processOne cfg api j fs log with
    | .error e => .crashed e
    | .ok (true, log') => runGroups cfg api (good + 1) bad log' rest
    | .ok (false, log') => runGroups cfg api good (bad + 1) log' rest

/-- The `__main__` block: only the initial unmatched-file list retrieval is
wrapped in `try`/`except` (failure prints and exits with code 1); the
remaining work runs with no exception handling. -/
def mainRun (cfg : Nat) (api : XbvrApi) : MainResult :=
  match api.listFiles with
  | .error _ => .configExit 1
  | .ok files => runGroups cfg api 0 0 [] (filter_unmatched_files_by_jav_id files)

/-! ### Invariant of parser-constructed identifiers, and concrete inputs -/

/-- Shape of a studio code produced by the parsing path: either the alias
result `"3DSVR"`, or 4 to 6 upper-case letters distinct from `"DSVR"`. -/
def ValidStudio (studio : PyStr) : Prop :=
  studio = pyOfString "3DSVR" ∨
  ((∀ a ∈ studio, isAsciiUpper a = true) ∧ 4 ≤ studio.length ∧ studio.length ≤ 6 ∧
    studio ≠ pyOfString "DSVR")

/-- Shape of a stored scene code produced by the parsing path: 3 to 6 digits,
fixed by the `lstrip("0").zfill(3)` normalization. -/
def ValidScene (scene : PyStr) : Prop :=
  (∀ a ∈ scene, isDigitCp a = true) ∧ 3 ≤ scene.length ∧ scene.length ≤ 6 ∧
  pyZfill 3 (lstripZeros scene) = scene

/-- Invariant satisfied by every `JavId` built through `JavId.from_string`. -/
def ValidJavId (j : JavId) : Prop := ValidStudio j.studio_code ∧ ValidScene j.scene_code

/-- Optional-list concatenation, describing how one grouping step extends an
existing dict entry (`none` = key absent). -/
def optConcat : Option (List FileInfo) → List FileInfo → Option (List FileInfo)
  | o, [] => o
  | some l, l' => some (l ++ l')
  | none, l' => some l'

/-- The identifier parsed from `"ABCD-123"`, `"abcd_0123"` and `"abcd123"`. -/
def javIdABCD123 : JavId := ⟨pyOfString "ABCD", pyOfString "123"⟩

/-- The identifier parsed from `"dsvr-123"` (the alias case). -/
def javId3DSVR123 : JavId := ⟨pyOfString "3DSVR", pyOfString "123"⟩

/-- A candidate scene whose `scene_id` parses to `javIdABCD123`. -/
def sceneGoodC2 : SceneInfo := ⟨pyOfString "ABCD-123", pyOfString "a title"⟩

/-- A candidate scene whose `scene_id` does not parse. -/
def sceneBadC2 : SceneInfo := ⟨pyOfString "???", pyOfString "junk"⟩

/-- An API double: the file listing succeeds with one parseable filename, but
every scene search fails (non-200). -/
def apiBoom : XbvrApi :=
  { listFiles := .ok [⟨1, pyOfString "abcd-123.mp4"⟩]
    searchScenes := fun _ => .error "boom"
    scrapeScene := fun _ _ => .ok ()
    matchFileCall := fun _ _ => .ok () }

/-- An API double whose initial file listing fails. -/
def apiDown : XbvrApi :=
  { listFiles := .error "down"
    searchScenes := fun _ => .ok []
    scrapeScene := fun _ _ => .ok ()
    matchFileCall := fun _ _ => .ok () }

/-- An API double for which every call succeeds but no scene is ever found. -/
def apiAllEmpty : XbvrApi :=
  { listFiles := .ok []
    searchScenes := fun _ => .ok []
    scrapeScene := fun _ _ => .ok ()
    matchFileCall := fun _ _ => .ok () }

/-! ### Character-class and string-method lemmas -/

theorem upperCp_of_upper {n : Nat} (h : isAsciiUpper n = true) : upperCp n = n := by
  simp [isAsciiUpper, decide_eq_true_eq] at h
  simp [upperCp]
  omega

theorem upperCp_of_digit {n : Nat} (h : isDigitCp n = true) : upperCp n = n := by
  simp [isDigitCp, decide_eq_true_eq] at h
  simp [upperCp]
  omega

theorem isAsciiUpper_upperCp {n : Nat} (h : isLetterCp n = true) :
    isAsciiUpper (upperCp n) = true := by
  simp [isLetterCp, isAsciiUpper, isAsciiLower, Bool.or_eq_true, decide_eq_true_eq] at h
  simp [upperCp, isAsciiUpper, decide_eq_true_eq]
  split <;> omega

theorem upper_not_space {n : Nat} (h : isAsciiUpper n = true) : isSpaceCp n = false := by
  simp [isAsciiUpper, decide_eq_true_eq] at h
  simp [isSpaceCp, decide_eq_true_eq]
  omega

theorem upper_ne_45 {n : Nat} (h : isAsciiUpper n = true) : n ≠ 45 := by
  simp [isAsciiUpper, decide_eq_true_eq] at h
  omega

theorem digit_not_space {n : Nat} (h : isDigitCp n = true) : isSpaceCp n = false := by
  simp [isDigitCp, decide_eq_true_eq] at h
  simp [isSpaceCp, decide_eq_true_eq]
  omega

theorem digit_not_sep {n : Nat} (h : isDigitCp n = true) : isSepCp n = false := by
  simp [isDigitCp, decide_eq_true_eq] at h
  simp [isSepCp, decide_eq_true_eq]
  omega

theorem digit_ne_45 {n : Nat} (h : isDigitCp n = true) : n ≠ 45 := by
  simp [isDigitCp, decide_eq_true_eq] at h
  omega

theorem isUpper_isLetter {n : Nat} (h : isAsciiUpper n = true) : isLetterCp n = true := by
  simp [isLetterCp, Bool.or_eq_true]
  exact Or.inl h

theorem map_eq_self_of {f : Nat → Nat} {l : PyStr} (h : ∀ a ∈ l, f a = a) :
    l.map f = l := by
  induction l with
  | nil => rfl
  | cons a t ih =>
    simp only [List.map_cons, h a (List.mem_cons_self a t)]
    rw [ih (fun b hb => h b (List.mem_cons_of_mem a hb))]

theorem dropWhile_eq_self_of_all {p : Nat → Bool} {l : PyStr}
    (h : ∀ a ∈ l, p a = false) : l.dropWhile p = l := by
  cases l with
  | nil => rfl
  | cons a t =>
    rw [List.dropWhile_cons_of_neg]
    simp [h a (List.mem_cons_self a t)]

theorem takeWhile_eq_self_of_all {p : Nat → Bool} {l : PyStr}
    (h : ∀ a ∈ l, p a = true) : l.takeWhile p = l := by
  induction l with
  | nil => rfl
  | cons a t ih =>
    rw [List.takeWhile_cons_of_pos (h a (List.mem_cons_self a t))]
    rw [ih (fun b hb => h b (List.mem_cons_of_mem a hb))]

theorem mem_of_takeWhile {p : Nat → Bool} {l : PyStr} {a : Nat}
    (h : a ∈ l.takeWhile p) : p a = true := by
  induction l with
  | nil => simp [List.takeWhile] at h
  | cons b t ih =>
    rw [List.takeWhile_cons] at h
    by_cases hb : p b = true
    · simp [hb] at h
      rcases h with h | h
      · exact h ▸ hb
      · exact ih h
    · simp [hb] at h

theorem dropWhile_idem {p : Nat → Bool} {l : PyStr} :
    (l.dropWhile p).dropWhile p = l.dropWhile p := by
  induction l with
  | nil => rfl
  | cons a t ih =>
    by_cases ha : p a = true
    · rw [List.dropWhile_cons_of_pos ha]
      exact ih
    · rw [List.dropWhile_cons_of_neg (by simp [ha]), List.dropWhile_cons_of_neg (by simp [ha])]

theorem pyStrip_eq_self {l : PyStr} (h : ∀ a ∈ l, isSpaceCp a = false) :
    pyStrip l = l := by
  unfold pyStrip
  rw [dropWhile_eq_self_of_all h]
  rw [dropWhile_eq_self_of_all (fun a ha => h a (List.mem_reverse.mp ha))]
  exact l.reverse_reverse

theorem pyZfill_of_digits {w : Nat} {l : PyStr} (h : ∀ a ∈ l, isDigitCp a = true) :
    pyZfill w l = List.replicate (w - l.length) 48 ++ l := by
  unfold pyZfill
  split
  · rename_i hle
    rw [Nat.sub_eq_zero_of_le hle]
    simp
  · cases l with
    | nil => simp
    | cons c rest =>
      have hc := h c (List.mem_cons_self c rest)
      simp [isDigitCp, decide_eq_true_eq] at hc
      show (if c = 43 ∨ c = 45 then c :: (List.replicate (w - (c :: rest).length) 48 ++ rest)
            else List.replicate (w - (c :: rest).length) 48 ++ (c :: rest)) =
          List.replicate (w - (c :: rest).length) 48 ++ c :: rest
      rw [if_neg (by omega)]

theorem mem_pyZfill_digits {w : Nat} {l : PyStr} (h : ∀ a ∈ l, isDigitCp a = true) :
    ∀ a ∈ pyZfill w l, isDigitCp a = true := by
  rw [pyZfill_of_digits h]
  intro a ha
  rcases List.mem_append.mp ha with ha | ha
  · rw [List.eq_of_mem_replicate ha]
    decide
  · exact h a ha

theorem length_pyZfill_digits {w : Nat} {l : PyStr} (h : ∀ a ∈ l, isDigitCp a = true) :
    (pyZfill w l).length = w - l.length + l.length := by
  rw [pyZfill_of_digits h]
  simp

theorem lstripZeros_pyZfill {w : Nat} {l : PyStr} (h : ∀ a ∈ l, isDigitCp a = true) :
    lstripZeros (pyZfill w l) = lstripZeros l := by
  rw [pyZfill_of_digits h]
  unfold lstripZeros
  rw [List.dropWhile_append_of_pos]
  intro a ha
  rw [List.eq_of_mem_replicate ha]
  rfl

theorem lstripZeros_idem {l : PyStr} : lstripZeros (lstripZeros l) = lstripZeros l :=
  dropWhile_idem

theorem mem_of_lstripZeros {l : PyStr} {a : Nat} (h : a ∈ lstripZeros l) : a ∈ l :=
  (List.dropWhile_sublist (· == 48)).subset h

theorem length_lstripZeros_le {l : PyStr} : (lstripZeros l).length ≤ l.length :=
  (List.dropWhile_sublist (· == 48)).length_le

/-! ### What the pattern search guarantees about its capture groups -/

theorem tryMatchAt_spec {prev : Option Nat} {l g1 g2 : PyStr}
    (h : tryMatchAt prev l = some (g1, g2)) :
    (∀ a ∈ g1, isLetterCp a = true) ∧ 4 ≤ g1.length ∧ g1.length ≤ 6 ∧
    (∀ a ∈ g2, isDigitCp a = true) ∧ 3 ≤ g2.length ∧ g2.length ≤ 6 := by
  unfold tryMatchAt at h
  split at h
  · exact absurd h (by simp)
  · split at h
    · split at h
      · rename_i hlen hds
        rw [Option.some.injEq, Prod.mk.injEq] at h
        obtain ⟨h1, h2⟩ := h
        subst h1
        subst h2
        refine ⟨fun a ha => mem_of_takeWhile ha, hlen.1, hlen.2, ?_, ?_, ?_⟩
        · intro a ha
          exact mem_of_takeWhile (List.take_subset 6 _ ha)
        · rw [List.length_take]
          omega
        · rw [List.length_take]
          omega
      · exact absurd h (by simp)
    · exact absurd h (by simp)

theorem searchJavId_spec : ∀ {l : PyStr} {prev : Option Nat} {g1 g2 : PyStr},
    searchJavId prev l = some (g1, g2) →
    (∀ a ∈ g1, isLetterCp a = true) ∧ 4 ≤ g1.length ∧ g1.length ≤ 6 ∧
    (∀ a ∈ g2, isDigitCp a = true) ∧ 3 ≤ g2.length ∧ g2.length ≤ 6 := by
  intro l
  induction l with
  | nil => intro prev g1 g2 h; exact absurd h (by simp [searchJavId])
  | cons c rest ih =>
    intro prev g1 g2 h
    unfold searchJavId at h
    revert h
    split
    · rename_i r hr
      intro h
      rw [Option.some.injEq] at h
      subst h
      exact tryMatchAt_spec hr
    · intro h
      exact ih h

theorem make_valid {g1 g2 : PyStr}
    (hl : ∀ a ∈ g1, isLetterCp a = true) (h4 : 4 ≤ g1.length) (h6 : g1.length ≤ 6)
    (hd : ∀ a ∈ g2, isDigitCp a = true) (hd6 : g2.length ≤ 6) :
    ValidJavId (JavId.make (pyUpper g1) (lstripZeros g2)) := by
  have hupper : ∀ a ∈ pyUpper g1, isAsciiUpper a = true := by
    intro a ha
    simp only [pyUpper, List.mem_map] at ha
    obtain ⟨b, hb, rfl⟩ := ha
    exact isAsciiUpper_upperCp (hl b hb)
  have hstrip : pyStrip (pyUpper g1) = pyUpper g1 :=
    pyStrip_eq_self (fun a ha => upper_not_space (hupper a ha))
  have hupfix : pyUpper (pyUpper g1) = pyUpper g1 :=
    map_eq_self_of (fun a ha => upperCp_of_upper (hupper a ha))
  have hlen : (pyUpper g1).length = g1.length := List.length_map g1 upperCp
  have hddig : ∀ a ∈ lstripZeros g2, isDigitCp a = true :=
    fun a ha => hd a (mem_of_lstripZeros ha)
  have hdstrip : pyStrip (lstripZeros g2) = lstripZeros g2 :=
    pyStrip_eq_self (fun a ha => digit_not_space (hddig a ha))
  have hdlen : (lstripZeros g2).length ≤ 6 := le_trans length_lstripZeros_le hd6
  constructor
  · show ValidStudio (if pyUpper (pyStrip (pyUpper g1)) = pyOfString "DSVR"
        then pyOfString "3DSVR" else pyUpper (pyStrip (pyUpper g1)))
    rw [hstrip, hupfix]
    by_cases hdsvr : pyUpper g1 = pyOfString "DSVR"
    · rw [if_pos hdsvr]
      exact Or.inl rfl
    · rw [if_neg hdsvr]
      exact Or.inr ⟨hupper, by omega, by omega, hdsvr⟩
  · show ValidScene (pyZfill 3 (lstripZeros (pyStrip (lstripZeros g2))))
    rw [hdstrip, lstripZeros_idem]
    refine ⟨mem_pyZfill_digits hddig, ?_, ?_, ?_⟩
    · rw [length_pyZfill_digits hddig]
      omega
    · rw [length_pyZfill_digits hddig]
      omega
    · rw [lstripZeros_pyZfill hddig, lstripZeros_idem]

theorem from_string_valid {s : PyStr} {j : JavId} (h : JavId.from_string s = some j) :
    ValidJavId j := by
  unfold JavId.from_string at h
  revert h
  split
  · intro h
    exact absurd h (by simp)
  · rename_i g1 g2 hs
    intro h
    rw [Option.some.injEq] at h
    subst h
    obtain ⟨hl, h4, h6, hd, _, hd6⟩ := searchJavId_spec hs
    exact make_valid hl h4 h6 hd hd6


/-! ### Round-trip of the DVD-ID form through the parser -/

theorem upper_ne_3dsvr {st : PyStr} (hupper : ∀ a ∈ st, isAsciiUpper a = true) :
    st ≠ pyOfString "3DSVR" := by
  intro he
  exact absurd (hupper 51 (he ▸ (by decide : (51 : Nat) ∈ pyOfString "3DSVR"))) (by decide)

theorem pyUpper_of_digits {l : PyStr} (h : ∀ a ∈ l, isDigitCp a = true) :
    pyUpper l = l :=
  map_eq_self_of (fun a ha => upperCp_of_digit (h a ha))

theorem pyUpper_of_upper {l : PyStr} (h : ∀ a ∈ l, isAsciiUpper a = true) :
    pyUpper l = l :=
  map_eq_self_of (fun a ha => upperCp_of_upper (h a ha))

theorem dvd_of_valid_nonalias {st sc : PyStr}
    (hupper : ∀ a ∈ st, isAsciiUpper a = true) (hsc : ValidScene sc) :
    JavId.as_dvd_id ⟨st, sc⟩ = st ++ 45 :: sc := by
  show pyUpper st ++ 45 :: (if st = pyOfString "3DSVR"
      then pyZfill 4 (lstripZeros (pyUpper sc))
      else pyZfill 3 (lstripZeros (pyUpper sc))) = st ++ 45 :: sc
  rw [if_neg (upper_ne_3dsvr hupper), pyUpper_of_digits hsc.1, hsc.2.2.2,
    pyUpper_of_upper hupper]

theorem dvd_of_valid_alias {sc : PyStr} (hsc : ValidScene sc) :
    JavId.as_dvd_id ⟨pyOfString "3DSVR", sc⟩ =
      pyOfString "3DSVR" ++ 45 :: pyZfill 4 (lstripZeros sc) := by
  show pyUpper (pyOfString "3DSVR") ++ 45 :: (if pyOfString "3DSVR" = pyOfString "3DSVR"
      then pyZfill 4 (lstripZeros (pyUpper sc))
      else pyZfill 3 (lstripZeros (pyUpper sc))) = _
  rw [if_pos rfl, pyUpper_of_digits hsc.1,
    (by decide : pyUpper (pyOfString "3DSVR") = pyOfString "3DSVR")]

theorem tryMatchAt_full {prev : Option Nat} {ls ds : PyStr}
    (hb : blockedBy prev = false)
    (hl : ∀ a ∈ ls, isLetterCp a = true) (h4 : 4 ≤ ls.length) (h6 : ls.length ≤ 6)
    (hd : ∀ a ∈ ds, isDigitCp a = true) (h3 : 3 ≤ ds.length) (hd6 : ds.length ≤ 6) :
    tryMatchAt prev (ls ++ 45 :: ds) = some (ls, ds) := by
  have htake : (ls ++ 45 :: ds).takeWhile isLetterCp = ls := by
    rw [List.takeWhile_append_of_pos hl,
      List.takeWhile_cons_of_neg (by decide : ¬ isLetterCp 45 = true)]
    exact List.append_nil ls
  have hdrop : (ls ++ 45 :: ds).dropWhile isLetterCp = 45 :: ds := by
    rw [List.dropWhile_append_of_pos hl,
      List.dropWhile_cons_of_neg (by decide : ¬ isLetterCp 45 = true)]
  have hchain : sepChainEnd (45 :: ds) = ds := by
    unfold sepChainEnd
    rw [List.dropWhile_cons_of_neg (by decide : ¬ isSpaceCp 45 = true),
      List.dropWhile_cons_of_pos (by decide : isSepCp 45 = true),
      dropWhile_eq_self_of_all (fun a ha => digit_not_sep (hd a ha))]
    exact dropWhile_eq_self_of_all (fun a ha => digit_not_space (hd a ha))
  unfold tryMatchAt
  rw [if_neg (by simp [hb]), htake, hdrop, hchain, takeWhile_eq_self_of_all hd,
    if_pos ⟨h4, h6⟩, if_pos h3, List.take_of_length_le hd6]

theorem searchJavId_eval_cons {prev : Option Nat} {c : Nat} {rest : PyStr}
    {r : PyStr × PyStr} (h : tryMatchAt prev (c :: rest) = some r) :
    searchJavId prev (c :: rest) = some r := by
  show (match tryMatchAt prev (c :: rest) with
        | some r => some r
        | none => searchJavId (some c) rest) = some r
  rw [h]

theorem searchJavId_skip {prev : Option Nat} {c : Nat} {rest : PyStr}
    (h : tryMatchAt prev (c :: rest) = none) :
    searchJavId prev (c :: rest) = searchJavId (some c) rest := by
  show (match tryMatchAt prev (c :: rest) with
        | some r => some r
        | none => searchJavId (some c) rest) = searchJavId (some c) rest
  rw [h]

theorem searchJavId_valid_dvd_nonalias {st sc : PyStr}
    (hupper : ∀ a ∈ st, isAsciiUpper a = true) (h4 : 4 ≤ st.length)
    (h6 : st.length ≤ 6) (hsc : ValidScene sc) :
    searchJavId none (st ++ 45 :: sc) = some (st, sc) := by
  obtain ⟨c, st', rfl⟩ : ∃ c st', st = c :: st' := by
    cases st with
    | nil => simp at h4
    | cons c st' => exact ⟨c, st', rfl⟩
  show searchJavId none (c :: (st' ++ 45 :: sc)) = some (c :: st', sc)
  apply searchJavId_eval_cons
  show tryMatchAt none ((c :: st') ++ 45 :: sc) = some (c :: st', sc)
  exact tryMatchAt_full rfl (fun a ha => isUpper_isLetter (hupper a ha)) h4 h6
    hsc.1 hsc.2.1 hsc.2.2.1

theorem searchJavId_valid_dvd_alias {sc : PyStr} (hsc : ValidScene sc) :
    searchJavId none (pyOfString "3DSVR" ++ 45 :: pyZfill 4 (lstripZeros sc)) =
      some (pyOfString "DSVR", pyZfill 4 (lstripZeros sc)) := by
  have hd' : ∀ a ∈ lstripZeros sc, isDigitCp a = true :=
    fun a ha => hsc.1 a (mem_of_lstripZeros ha)
  have hd : ∀ a ∈ pyZfill 4 (lstripZeros sc), isDigitCp a = true :=
    mem_pyZfill_digits hd'
  have hlen : (pyZfill 4 (lstripZeros sc)).length =
      4 - (lstripZeros sc).length + (lstripZeros sc).length :=
    length_pyZfill_digits hd'
  have hlen6 : (lstripZeros sc).length ≤ 6 :=
    le_trans length_lstripZeros_le hsc.2.2.1
  rw [(by decide : pyOfString "3DSVR" = 51 :: pyOfString "DSVR"), List.cons_append]
  have h1 : tryMatchAt none (51 :: (pyOfString "DSVR" ++ 45 :: pyZfill 4 (lstripZeros sc))) = none := by
    unfold tryMatchAt
    rw [List.takeWhile_cons_of_neg (by decide : ¬ isLetterCp 51 = true)]
    simp [blockedBy]
  rw [searchJavId_skip h1]
  rw [(by decide : pyOfString "DSVR" = 68 :: [83, 86, 82]), List.cons_append]
  apply searchJavId_eval_cons
  show tryMatchAt (some 51) ((68 :: [83, 86, 82]) ++ 45 :: pyZfill 4 (lstripZeros sc)) =
    some (68 :: [83, 86, 82], pyZfill 4 (lstripZeros sc))
  exact tryMatchAt_full (by decide) (by decide) (by decide) (by decide) hd
    (by omega) (by omega)

theorem make_alias_eval {sc : PyStr} (hsc : ValidScene sc) :
    JavId.make (pyUpper (pyOfString "DSVR")) (lstripZeros (pyZfill 4 (lstripZeros sc))) =
      ⟨pyOfString "3DSVR", sc⟩ := by
  have hd' : ∀ a ∈ lstripZeros sc, isDigitCp a = true :=
    fun a ha => hsc.1 a (mem_of_lstripZeros ha)
  rw [lstripZeros_pyZfill hd', lstripZeros_idem]
  show JavId.mk
      (if pyUpper (pyStrip (pyUpper (pyOfString "DSVR"))) = pyOfString "DSVR"
        then pyOfString "3DSVR" else pyUpper (pyStrip (pyUpper (pyOfString "DSVR"))))
      (pyZfill 3 (lstripZeros (pyStrip (lstripZeros sc)))) = JavId.mk (pyOfString "3DSVR") sc
  rw [(by decide : pyUpper (pyStrip (pyUpper (pyOfString "DSVR"))) = pyOfString "DSVR"),
    if_pos rfl, pyStrip_eq_self (fun a ha => digit_not_space (hd' a ha)),
    lstripZeros_idem, hsc.2.2.2]

theorem make_nonalias_eval {st sc : PyStr}
    (hupper : ∀ a ∈ st, isAsciiUpper a = true) (hne : st ≠ pyOfString "DSVR")
    (hsc : ValidScene sc) :
    JavId.make (pyUpper st) (lstripZeros sc) = ⟨st, sc⟩ := by
  have hd' : ∀ a ∈ lstripZeros sc, isDigitCp a = true :=
    fun a ha => hsc.1 a (mem_of_lstripZeros ha)
  have hufix : pyUpper st = st := pyUpper_of_upper hupper
  have hstrip : pyStrip st = st :=
    pyStrip_eq_self (fun a ha => upper_not_space (hupper a ha))
  show JavId.mk
      (if pyUpper (pyStrip (pyUpper st)) = pyOfString "DSVR"
        then pyOfString "3DSVR" else pyUpper (pyStrip (pyUpper st)))
      (pyZfill 3 (lstripZeros (pyStrip (lstripZeros sc)))) = JavId.mk st sc
  rw [hufix, hstrip, hufix, if_neg hne,
    pyStrip_eq_self (fun a ha => digit_not_space (hd' a ha)),
    lstripZeros_idem, hsc.2.2.2]

theorem valid_roundtrip {j : JavId} (hv : ValidJavId j) :
    JavId.from_string j.as_dvd_id = some j := by
  obtain ⟨st, sc⟩ := j
  obtain ⟨hst, hsc⟩ := hv
  rcases hst with h3d | ⟨hupper, h4, h6, hne⟩
  · subst h3d
    rw [dvd_of_valid_alias hsc]
    unfold JavId.from_string
    rw [searchJavId_valid_dvd_alias hsc]
    show some (JavId.make (pyUpper (pyOfString "DSVR"))
      (lstripZeros (pyZfill 4 (lstripZeros sc)))) = _
    rw [make_alias_eval hsc]
  · rw [dvd_of_valid_nonalias hupper hsc]
    unfold JavId.from_string
    rw [searchJavId_valid_dvd_nonalias hupper h4 h6 hsc]
    show some (JavId.make (pyUpper st) (lstripZeros sc)) = _
    rw [make_nonalias_eval hupper hne hsc]

/-! ### Injectivity of the DVD-ID form on parser-constructed identifiers -/

theorem append_cons45_inj : ∀ {a c : PyStr} {b d : PyStr},
    (45 : Nat) ∉ a → (45 : Nat) ∉ c → a ++ 45 :: b = c ++ 45 :: d → a = c ∧ b = d := by
  intro a
  induction a with
  | nil =>
    intro c b d _ hc h
    cases c with
    | nil => simpa using h
    | cons c0 c' =>
      rw [List.nil_append, List.cons_append, List.cons.injEq] at h
      exact absurd (h.1 ▸ List.mem_cons_self c0 c') hc
  | cons a0 a' ih =>
    intro c b d ha hc h
    cases c with
    | nil =>
      rw [List.nil_append, List.cons_append, List.cons.injEq] at h
      exact absurd (h.1 ▸ List.mem_cons_self a0 a') ha
    | cons c0 c' =>
      rw [List.cons_append, List.cons_append, List.cons.injEq] at h
      obtain ⟨rfl, h2⟩ := h
      obtain ⟨h3, h4⟩ := ih (fun hm => ha (List.mem_cons_of_mem a0 hm))
        (fun hm => hc (List.mem_cons_of_mem a0 hm)) h2
      exact ⟨by rw [h3], h4⟩

theorem valid_dvd_shape {j : JavId} (hv : ValidJavId j) :
    ∃ pad : PyStr, j.as_dvd_id = j.studio_code ++ 45 :: pad ∧
      (∀ a ∈ pad, isDigitCp a = true) ∧
      j.scene_code = pyZfill 3 (lstripZeros pad) ∧
      (45 : Nat) ∉ j.studio_code := by
  obtain ⟨st, sc⟩ := j
  obtain ⟨hst, hsc⟩ := hv
  have hd' : ∀ a ∈ lstripZeros sc, isDigitCp a = true :=
    fun a ha => hsc.1 a (mem_of_lstripZeros ha)
  rcases hst with h3d | ⟨hupper, _, _, _⟩
  · subst h3d
    refine ⟨pyZfill 4 (lstripZeros sc), dvd_of_valid_alias hsc,
      mem_pyZfill_digits hd', ?_, ?_⟩
    · show sc = pyZfill 3 (lstripZeros (pyZfill 4 (lstripZeros sc)))
      rw [lstripZeros_pyZfill hd', lstripZeros_idem, hsc.2.2.2]
    · show (45 : Nat) ∉ pyOfString "3DSVR"
      decide
  · refine ⟨sc, dvd_of_valid_nonalias hupper hsc, hsc.1, (hsc.2.2.2).symm, ?_⟩
    intro hm
    exact absurd (hupper 45 hm) (by decide)

theorem valid_dvd_inj {x y : JavId} (hx : ValidJavId x) (hy : ValidJavId y)
    (h : x.as_dvd_id = y.as_dvd_id) : x = y := by
  obtain ⟨px, hx1, _, hx3, hx4⟩ := valid_dvd_shape hx
  obtain ⟨py, hy1, _, hy3, hy4⟩ := valid_dvd_shape hy
  rw [hx1, hy1] at h
  obtain ⟨hst, hpad⟩ := append_cons45_inj hx4 hy4 h
  obtain ⟨stx, scx⟩ := x
  obtain ⟨sty, scy⟩ := y
  simp only at hst hx3 hy3
  rw [JavId.mk.injEq]
  refine ⟨hst, ?_⟩
  rw [hx3, hy3, hpad]

/-- On parser-constructed identifiers the DVD-ID and Content-ID forms differ:
the former contains the hyphen, the latter never does. -/
theorem valid_dvd_ne_content {j : JavId} (hv : ValidJavId j) :
    j.as_dvd_id ≠ j.as_content_id := by
  obtain ⟨pad, h1, _, _, _⟩ := valid_dvd_shape hv
  have hmem : (45 : Nat) ∈ j.as_dvd_id := by
    rw [h1]
    exact List.mem_append.mpr (Or.inr (List.mem_cons_self 45 pad))
  intro he
  rw [he] at hmem
  obtain ⟨st, sc⟩ := j
  obtain ⟨hst, hsc⟩ := hv
  have hd' : ∀ a ∈ lstripZeros (pyUpper sc), isDigitCp a = true := by
    rw [pyUpper_of_digits hsc.1]
    exact fun a ha => hsc.1 a (mem_of_lstripZeros ha)
  have hstudio45 : ∀ a ∈ pyUpper (if st = pyOfString "3DSVR" then pyOfString "13DSVR" else st),
      a ≠ 45 := by
    by_cases h3 : st = pyOfString "3DSVR"
    · rw [if_pos h3]
      decide
    · rw [if_neg h3]
      rcases hst with h3d | ⟨hupper, _, _, _⟩
      · exact absurd h3d h3
      · rw [pyUpper_of_upper hupper]
        exact fun a ha => upper_ne_45 (hupper a ha)
  have hnum45 : ∀ a ∈ pyZfill 5 (lstripZeros (pyUpper sc)), a ≠ 45 :=
    fun a ha => digit_ne_45 (mem_pyZfill_digits hd' a ha)
  have ha2 : (45 : Nat) ∈ pyUpper (if st = pyOfString "3DSVR" then pyOfString "13DSVR" else st)
      ++ pyZfill 5 (lstripZeros (pyUpper sc)) := hmem
  rcases List.mem_append.mp ha2 with h | h
  · exact hstudio45 45 h rfl
  · exact hnum45 45 h rfl

/-! ### What the grouping loop computes, key by key -/

theorem optConcat_nil (o : Option (List FileInfo)) : optConcat o [] = o := by
  cases o <;> rfl

theorem optConcat_none (L : List FileInfo) :
    optConcat none L = if L = [] then none else some L := by
  cases L <;> simp [optConcat]

theorem optConcat_push (o : Option (List FileInfo)) (f : FileInfo) (L : List FileInfo) :
    optConcat (some (o.getD [] ++ [f])) L = optConcat o (f :: L) := by
  cases o <;> cases L <;> simp [optConcat]

theorem addFile_lookup (acc : List (JavId × List FileInfo)) (ji : JavId) (f : FileInfo)
    (j : JavId) :
    lookupJ j (addFile acc ji f) =
      if ji = j then some ((lookupJ j acc).getD [] ++ [f]) else lookupJ j acc := by
  induction acc with
  | nil =>
    by_cases h : ji = j
    · subst h
      simp [addFile, lookupJ]
    · simp [addFile, lookupJ, h]
  | cons kv rest ih =>
    obtain ⟨k, v⟩ := kv
    by_cases hk : k = ji
    · subst hk
      by_cases hj : k = j
      · subst hj
        simp [addFile, lookupJ]
      · simp [addFile, lookupJ, hj]
    · by_cases hj : k = j
      · subst hj
        have hij : ji ≠ k := fun he => hk he.symm
        simp [addFile, lookupJ, hk, hij]
      · simp [addFile, lookupJ, hk, hj, ih]

theorem filterLoop_lookup :
    ∀ (files : List FileInfo) (acc : List (JavId × List FileInfo)) (j : JavId),
    lookupJ j (filterLoop acc files) =
      optConcat (lookupJ j acc)
        (if isCzechFalsePositive j = true then []
         else files.filter (fun f => decide (JavId.from_string f.filename = some j))) := by
  intro files
  induction files with
  | nil =>
    intro acc j
    simp [filterLoop, optConcat_nil]
  | cons f fs ih =>
    intro acc j
    cases hparse : JavId.from_string f.filename with
    | none =>
      rw [show filterLoop acc (f :: fs) = filterLoop acc fs from by
        simp [filterLoop, hparse]]
      rw [ih]
      simp [List.filter_cons, hparse]
    | some ji =>
      by_cases hcz : isCzechFalsePositive ji = true
      · rw [show filterLoop acc (f :: fs) = filterLoop acc fs from by
          simp [filterLoop, hparse, hcz]]
        rw [ih]
        by_cases hj : ji = j
        · subst hj
          rw [if_pos hcz, if_pos hcz]
        · simp [List.filter_cons, hparse, hj]
      · rw [show filterLoop acc (f :: fs) = filterLoop (addFile acc ji f) fs from by
          simp [filterLoop, hparse, hcz]]
        rw [ih, addFile_lookup]
        by_cases hj : ji = j
        · subst hj
          rw [if_pos rfl, if_neg hcz, if_neg hcz]
          rw [show (f :: fs).filter (fun f => decide (JavId.from_string f.filename = some ji)) =
              f :: fs.filter (fun f => decide (JavId.from_string f.filename = some ji)) from by
            simp [List.filter_cons, hparse]]
          exact optConcat_push (lookupJ ji acc) f _
        · rw [if_neg hj]
          simp [List.filter_cons, hparse, hj]

/-! ### What the scene matcher computes -/

theorem get_scene_all_parse {j : JavId} :
    ∀ scenes : List SceneInfo, (∀ si ∈ scenes, (JavId.from_string si.scene_id).isSome = true) →
    get_scene_for_jav_id j scenes =
      scenes.find? (fun si => decide (JavId.from_string si.scene_id = some j)) := by
  intro scenes
  induction scenes with
  | nil => intro _; rfl
  | cons si rest ih =>
    intro h
    obtain ⟨ji, hji⟩ := Option.isSome_iff_exists.mp (h si (List.mem_cons_self si rest))
    by_cases hj : ji = j
    · subst hj
      rw [List.find?_cons_of_pos _ (by simp [hji])]
      simp [get_scene_for_jav_id, hji]
    · rw [List.find?_cons_of_neg _ (by simp [hji, hj])]
      rw [show get_scene_for_jav_id j (si :: rest) = get_scene_for_jav_id j rest from by
        simp [get_scene_for_jav_id, hji, hj]]
      exact ih (fun s hs => h s (List.mem_cons_of_mem si hs))

theorem get_scene_abort {j : JavId} {bad : SceneInfo} {rest : List SceneInfo} :
    ∀ pre : List SceneInfo,
    (∀ si ∈ pre, ∃ j', JavId.from_string si.scene_id = some j' ∧ j' ≠ j) →
    JavId.from_string bad.scene_id = none →
    get_scene_for_jav_id j (pre ++ bad :: rest) = none := by
  intro pre
  induction pre with
  | nil =>
    intro _ hbad
    simp [get_scene_for_jav_id, hbad]
  | cons p pre' ih =>
    intro hpre hbad
    obtain ⟨j', hp, hne⟩ := hpre p (List.mem_cons_self p pre')
    rw [List.cons_append]
    rw [show get_scene_for_jav_id j (p :: (pre' ++ bad :: rest)) =
        get_scene_for_jav_id j (pre' ++ bad :: rest) from by
      simp [get_scene_for_jav_id, hp, hne]]
    exact ih (fun s hs => hpre s (List.mem_cons_of_mem p hs)) hbad

/-! ### Evaluating the matching loop when no lookup ever succeeds -/

theorem exceptBind_ok {α β : Type} (a : α) (f : α → Except String β) :
    (Except.ok a : Except String α) >>= f = f a := rfl

theorem exceptBind_congr {α β : Type} {x : Except String α} {f g : α → Except String β}
    (h : ∀ a, f a = g a) : x >>= f = x >>= g := by
  cases x with
  | error e => rfl
  | ok a => exact h a

theorem collectScenes_empty {api : XbvrApi} {j : JavId}
    (hs : ∀ q, api.searchScenes q = .ok []) : collectScenes api j = .ok [] := by
  simp only [collectScenes, JavId.id_formats, collectScenesList, hs, exceptBind_ok]
  rfl

theorem scrapeLoop_all_empty {cfg : Nat} {api : XbvrApi} {j : JavId}
    (hs : ∀ q, api.searchScenes q = .ok [])
    (hscr : ∀ s q, api.scrapeScene s q = Except.ok ()) :
    ∀ (ss : List JavScrapers) (log : ScrapeLog),
    scrapeLoop cfg api j ss log =
      .ok (none, log ++ ss.map (fun s => (s, scrapeQuery j s, 10))) := by
  intro ss
  induction ss with
  | nil =>
    intro log
    simp [scrapeLoop]
  | cons s rest ih =>
    intro log
    simp only [scrapeLoop, hscr, exceptBind_ok, collectScenes_empty hs,
      get_scene_for_jav_id, scrape_sleep_seconds, ih, List.map_cons]
    simp

theorem processOne_all_empty {cfg : Nat} {api : XbvrApi} {j : JavId}
    {files : List FileInfo} {log : ScrapeLog}
    (hs : ∀ q, api.searchScenes q = .ok [])
    (hscr : ∀ s q, api.scrapeScene s q = Except.ok ()) :
    processOne cfg api j files log =
      .ok (false, log ++ [(JavScrapers.JAVDATABASE, j.as_dvd_id, 10),
                          (JavScrapers.R18DEV, j.as_content_id, 10),
                          (JavScrapers.JAVLIBRARY, j.as_dvd_id, 10)]) := by
  simp only [processOne, collectScenes_empty hs, exceptBind_ok, get_scene_for_jav_id,
    scrapeLoop_all_empty hs hscr, javScrapersInOrder, List.map_cons, List.map_nil,
    scrapeQuery]
  simp
  rfl

/-! ### The configured scrape timeout is never read -/

theorem scrapeLoop_cfg_irrel (cfg cfg' : Nat) (api : XbvrApi) (j : JavId) :
    ∀ (ss : List JavScrapers) (log : ScrapeLog),
    scrapeLoop cfg api j ss log = scrapeLoop cfg' api j ss log := by
  intro ss
  induction ss with
  | nil => intro log; rfl
  | cons s rest ih =>
    intro log
    simp only [scrapeLoop, scrape_sleep_seconds]
    apply exceptBind_congr
    intro _
    apply exceptBind_congr
    intro scenes
    cases get_scene_for_jav_id j scenes with
    | some sc => rfl
    | none => exact ih _

theorem processOne_cfg_irrel (cfg cfg' : Nat) (api : XbvrApi) (j : JavId)
    (files : List FileInfo) (log : ScrapeLog) :
    processOne cfg api j files log = processOne cfg' api j files log := by
  have h : scrapeLoop cfg api j = scrapeLoop cfg' api j :=
    funext fun ss => funext fun lg => scrapeLoop_cfg_irrel cfg cfg' api j ss lg
  simp only [processOne, h]

theorem runGroups_cfg_irrel (cfg cfg' : Nat) (api : XbvrApi) :
    ∀ (gs : List (JavId × List FileInfo)) (good bad : Nat) (log : ScrapeLog),
    runGroups cfg api good bad log gs = runGroups cfg' api good bad log gs := by
  intro gs
  induction gs with
  | nil => intro good bad log; rfl
  | cons g rest ih =>
    intro good bad log
    obtain ⟨j, fs⟩ := g
    simp only [runGroups, processOne_cfg_irrel cfg cfg' api j fs log]
    cases processOne cfg' api j fs log with
    | error e => rfl
    | ok r =>
      obtain ⟨b, log'⟩ := r
      cases b
      · exact ih good (bad + 1) log'
      · exact ih (good + 1) bad log'

theorem mainRun_cfg_irrel (cfg cfg' : Nat) (api : XbvrApi) :
    mainRun cfg api = mainRun cfg' api := by
  unfold mainRun
  cases api.listFiles with
  | error e => rfl
  | ok files => exact runGroups_cfg_irrel cfg cfg' api _ 0 0 []

/-! ### The claims -/

/-- C1 counterexample: the claim says all four inputs parse, but
`"AB CD.123"` does not: its letter runs have length 2 and `PAT_JAV_ID`
requires 4 to 6 consecutive letters, so `JavId.from_string` raises. -/
theorem c1_counterexample : JavId.from_string (pyOfString "AB CD.123") = none := by
  decide

/-- C1 (amended): parsing succeeds on `"ABCD-123"`, `"abcd_0123"` and
`"abcd123"`, yielding one and the same Identifier (so equal under the §3
Display-form equality rule), whose Display form is `"ABCD-123"`; the fourth
input `"AB CD.123"` fails to parse. -/
theorem c1_three_inputs_parse_equal :
    JavId.from_string (pyOfString "ABCD-123") = some javIdABCD123 ∧
    JavId.from_string (pyOfString "abcd_0123") = some javIdABCD123 ∧
    JavId.from_string (pyOfString "abcd123") = some javIdABCD123 ∧
    javIdABCD123.as_dvd_id = pyOfString "ABCD-123" := by
  decide

/-- C2 counterexample: a candidate whose `scene_id` fails to parse does not
merely get skipped: with a matching scene right after the unparseable one,
`get_scene_for_jav_id` returns `None` instead of the matching scene. -/
theorem c2_counterexample :
    JavId.from_string sceneGoodC2.scene_id = some javIdABCD123 ∧
    get_scene_for_jav_id javIdABCD123 [sceneBadC2, sceneGoodC2] = none := by
  decide

/-- C2 (amended): `get_scene_for_jav_id` returns the first candidate whose
`scene_id` parses to an equal Identifier when every candidate's `scene_id`
parses; but the first candidate with an unparseable `scene_id` aborts the
search at once, returning `None` with the remaining candidates unexamined. -/
theorem c2_first_match_or_abort :
    (∀ (j : JavId) (scenes : List SceneInfo),
      (∀ si ∈ scenes, (JavId.from_string si.scene_id).isSome = true) →
      get_scene_for_jav_id j scenes =
        scenes.find? (fun si => decide (JavId.from_string si.scene_id = some j))) ∧
    (∀ (j : JavId) (pre : List SceneInfo) (bad : SceneInfo) (rest : List SceneInfo),
      (∀ si ∈ pre, ∃ j', JavId.from_string si.scene_id = some j' ∧ j' ≠ j) →
      JavId.from_string bad.scene_id = none →
      get_scene_for_jav_id j (pre ++ bad :: rest) = none) :=
  ⟨fun _ scenes h => get_scene_all_parse scenes h,
   fun _ pre _ _ hpre hbad => get_scene_abort pre hpre hbad⟩

/-- C2 witness: the amended statement applied at concrete inputs. -/
theorem c2_first_match_or_abort_witness :
    get_scene_for_jav_id javIdABCD123 [sceneGoodC2] =
      [sceneGoodC2].find?
        (fun si => decide (JavId.from_string si.scene_id = some javIdABCD123)) ∧
    get_scene_for_jav_id javIdABCD123 ([] ++ sceneBadC2 :: []) = none :=
  ⟨c2_first_match_or_abort.1 javIdABCD123 [sceneGoodC2] (by decide),
   c2_first_match_or_abort.2 javIdABCD123 [] sceneBadC2 [] (by simp) (by decide)⟩

/-- C3 counterexample: the initial file listing succeeds, yet a non-200 scene
search during per-item processing is not caught: the whole run crashes
instead of skipping the item and completing with it counted as failed. -/
theorem c3_counterexample :
    apiBoom.listFiles = .ok [⟨1, pyOfString "abcd-123.mp4"⟩] ∧
    mainRun 12 apiBoom = MainResult.crashed "boom" :=
  ⟨rfl, rfl⟩

/-- C3 (amended): only the initial unmatched-file list retrieval is guarded
(its failure exits with code 1); a `RemoteCallFailure` raised by any per-item
call propagates uncaught and terminates the whole run. -/
theorem c3_only_initial_fetch_guarded :
    (∀ (cfg : Nat) (api : XbvrApi) (msg : String),
      api.listFiles = .error msg → mainRun cfg api = MainResult.configExit 1) ∧
    (∀ (cfg : Nat) (api : XbvrApi) (good bad : Nat) (log : ScrapeLog)
      (j : JavId) (fs : List FileInfo) (gs : List (JavId × List FileInfo)) (e : String),
      processOne cfg api j fs log = .error e →
      runGroups cfg api good bad log ((j, fs) :: gs) = MainResult.crashed e) := by
  constructor
  · intro cfg api msg h
    unfold mainRun
    rw [h]
  · intro cfg api good bad log j fs gs e h
    show (match processOne cfg api j fs log with
          | .error e => MainResult.crashed e
          | .ok (true, log') => runGroups cfg api (good + 1) bad log' gs
          | .ok (false, log') => runGroups cfg api good (bad + 1) log' gs) =
        MainResult.crashed e
    rw [h]

/-- C3 witness: the amended statement applied at concrete inputs. -/
theorem c3_only_initial_fetch_guarded_witness :
    mainRun 12 apiDown = MainResult.configExit 1 ∧
    runGroups 12 apiBoom 0 0 [] [(javIdABCD123, [⟨1, pyOfString "abcd-123.mp4"⟩])] =
      MainResult.crashed "boom" :=
  ⟨c3_only_initial_fetch_guarded.1 12 apiDown "down" rfl,
   c3_only_initial_fetch_guarded.2 12 apiBoom 0 0 [] javIdABCD123
     [⟨1, pyOfString "abcd-123.mp4"⟩] [] "boom" rfl⟩

/-- C4: round-trip: for every Identifier built from parser output, parsing its
DVD-ID (Display) form again yields an equal Identifier — including the alias
case, whose Display form begins with the digit `3`. -/
theorem c4_roundtrip (s : PyStr) (x : JavId) (h : JavId.from_string s = some x) :
    JavId.from_string x.as_dvd_id = some x :=
  valid_roundtrip (from_string_valid h)

/-- C4 witness: the round-trip applied to the alias-case Identifier parsed
from `"dsvr-123"`, whose Display form is `"3DSVR-0123"`. -/
theorem c4_roundtrip_witness :
    JavId.from_string (pyOfString "dsvr-123") = some javId3DSVR123 ∧
    JavId.from_string (JavId.as_dvd_id javId3DSVR123) = some javId3DSVR123 :=
  ⟨by decide, c4_roundtrip (pyOfString "dsvr-123") javId3DSVR123 (by decide)⟩

/-- C5: alias rule: whenever the producer code normalizes (trim, upper-case)
to `"DSVR"`, the constructed Identifier stores `"3DSVR"`; its Display form is
`"3DSVR-"` followed by the sequence number padded to 4 digits, and its
Content-ID form is `"13DSVR"` followed by the sequence number padded to 5
digits. -/
theorem c5_alias (studio scene : PyStr)
    (hstudio : pyUpper (pyStrip studio) = pyOfString "DSVR")
    (hdigits : ∀ a ∈ scene, isDigitCp a = true) :
    (JavId.make studio scene).studio_code = pyOfString "3DSVR" ∧
    (JavId.make studio scene).as_dvd_id =
      pyOfString "3DSVR-" ++ pyZfill 4 (lstripZeros scene) ∧
    (JavId.make studio scene).as_content_id =
      pyOfString "13DSVR" ++ pyZfill 5 (lstripZeros scene) := by
  have hstrip : pyStrip scene = scene :=
    pyStrip_eq_self (fun a ha => digit_not_space (hdigits a ha))
  have hd' : ∀ a ∈ lstripZeros scene, isDigitCp a = true :=
    fun a ha => hdigits a (mem_of_lstripZeros ha)
  have hj : JavId.make studio scene =
      JavId.mk (pyOfString "3DSVR") (pyZfill 3 (lstripZeros scene)) := by
    show JavId.mk (if pyUpper (pyStrip studio) = pyOfString "DSVR" then pyOfString "3DSVR"
        else pyUpper (pyStrip studio)) (pyZfill 3 (lstripZeros (pyStrip scene))) = _
    rw [if_pos hstudio, hstrip]
  rw [hj]
  refine ⟨rfl, ?_, ?_⟩
  · show pyUpper (pyOfString "3DSVR") ++ 45 ::
        (if pyOfString "3DSVR" = pyOfString "3DSVR"
         then pyZfill 4 (lstripZeros (pyUpper (pyZfill 3 (lstripZeros scene))))
         else pyZfill 3 (lstripZeros (pyUpper (pyZfill 3 (lstripZeros scene))))) = _
    rw [if_pos rfl, pyUpper_of_digits (mem_pyZfill_digits hd'), lstripZeros_pyZfill hd',
      lstripZeros_idem, (by decide : pyUpper (pyOfString "3DSVR") = pyOfString "3DSVR"),
      (by decide : pyOfString "3DSVR-" = pyOfString "3DSVR" ++ [45])]
    simp
  · show pyUpper (if pyOfString "3DSVR" = pyOfString "3DSVR" then pyOfString "13DSVR"
        else pyOfString "3DSVR")
      ++ pyZfill 5 (lstripZeros (pyUpper (pyZfill 3 (lstripZeros scene)))) = _
    rw [if_pos rfl, pyUpper_of_digits (mem_pyZfill_digits hd'), lstripZeros_pyZfill hd',
      lstripZeros_idem, (by decide : pyUpper (pyOfString "13DSVR") = pyOfString "13DSVR")]

/-- C5 witness: the alias rule applied to studio `" dsvr "` and sequence
number `"0123"`. -/
theorem c5_alias_witness :
    (JavId.make (pyOfString " dsvr ") (pyOfString "0123")).studio_code =
      pyOfString "3DSVR" ∧
    (JavId.make (pyOfString " dsvr ") (pyOfString "0123")).as_dvd_id =
      pyOfString "3DSVR-" ++ pyZfill 4 (lstripZeros (pyOfString "0123")) ∧
    (JavId.make (pyOfString " dsvr ") (pyOfString "0123")).as_content_id =
      pyOfString "13DSVR" ++ pyZfill 5 (lstripZeros (pyOfString "0123")) :=
  c5_alias (pyOfString " dsvr ") (pyOfString "0123") (by decide) (by decide)

/-- C6: for identifiers constructed through the parsing path, equality (with
equal hashes, for any interpreter string-hash function) holds exactly when
the Display/DVD-form strings are equal. -/
theorem c6_eq_hash (strHash : PyStr → Int) (s t : PyStr) (x y : JavId)
    (hx : JavId.from_string s = some x) (hy : JavId.from_string t = some y) :
    (x = y ∧ JavId.pyHash strHash x = JavId.pyHash strHash y) ↔
      x.as_dvd_id = y.as_dvd_id := by
  constructor
  · rintro ⟨rfl, _⟩
    rfl
  · intro hd
    have hxy : x = y := valid_dvd_inj (from_string_valid hx) (from_string_valid hy) hd
    exact ⟨hxy, by rw [hxy]⟩

/-- C6 witness: the equivalence applied at a concrete parsed Identifier and a
constant hash function. -/
theorem c6_eq_hash_witness :
    (javIdABCD123 = javIdABCD123 ∧
      JavId.pyHash (fun _ => 0) javIdABCD123 = JavId.pyHash (fun _ => 0) javIdABCD123) ↔
      javIdABCD123.as_dvd_id = javIdABCD123.as_dvd_id :=
  c6_eq_hash (fun _ => 0) (pyOfString "ABCD-123") (pyOfString "ABCD-123")
    javIdABCD123 javIdABCD123 (by decide) (by decide)

/-- C7: the grouping maps an Identifier to exactly the input files whose
filename parses to an equal Identifier; files that fail to parse appear
nowhere, and an Identifier whose studio code starts (case-insensitively) with
`"czech"` is excluded entirely together with all its files. -/
theorem c7_grouping (files : List FileInfo) (j : JavId) :
    lookupJ j (filter_unmatched_files_by_jav_id files) =
      if isCzechFalsePositive j = true ∨
         files.filter (fun f => decide (JavId.from_string f.filename = some j)) = []
      then none
      else some (files.filter (fun f => decide (JavId.from_string f.filename = some j))) := by
  unfold filter_unmatched_files_by_jav_id
  rw [filterLoop_lookup]
  by_cases hcz : isCzechFalsePositive j = true
  · rw [if_pos hcz, if_pos (Or.inl hcz)]
    rfl
  · rw [if_neg hcz]
    rw [show lookupJ j ([] : List (JavId × List FileInfo)) = none from rfl, optConcat_none]
    by_cases hfil : files.filter (fun f => decide (JavId.from_string f.filename = some j)) = []
    · rw [if_pos hfil, if_pos (Or.inr hfil)]
    · rw [if_neg hfil, if_neg (fun hor => hor.elim hcz hfil)]

/-- C8: when every catalog lookup returns no scenes and every call returns
HTTP 200, processing one Identifier triggers each configured scraper exactly
once, in enum (priority) order, does not raise, and ends reporting failure
(`false`, counted in the batch statistics). -/
theorem c8_exhaustion (cfg : Nat) (api : XbvrApi) (j : JavId) (files : List FileInfo)
    (log : ScrapeLog)
    (hs : ∀ q, api.searchScenes q = .ok [])
    (hscr : ∀ s q, api.scrapeScene s q = Except.ok ()) :
    processOne cfg api j files log =
      .ok (false, log ++ [(JavScrapers.JAVDATABASE, j.as_dvd_id, 10),
                          (JavScrapers.R18DEV, j.as_content_id, 10),
                          (JavScrapers.JAVLIBRARY, j.as_dvd_id, 10)]) :=
  processOne_all_empty hs hscr

/-- C8 witness: the exhaustion run applied at a concrete API double. -/
theorem c8_exhaustion_witness :
    processOne 12 apiAllEmpty javIdABCD123 [] [] =
      .ok (false, [] ++ [(JavScrapers.JAVDATABASE, javIdABCD123.as_dvd_id, 10),
                          (JavScrapers.R18DEV, javIdABCD123.as_content_id, 10),
                          (JavScrapers.JAVLIBRARY, javIdABCD123.as_dvd_id, 10)]) :=
  c8_exhaustion 12 apiAllEmpty javIdABCD123 [] [] (fun _ => rfl) (fun _ _ => rfl)

/-- C9: the scrape trigger sends the Content-ID form exactly for the `R18DEV`
scraper, and the DVD-ID (Display) form for every other scraper. -/
theorem c9_query (s0 : PyStr) (j : JavId) (h : JavId.from_string s0 = some j)
    (sc : JavScrapers) :
    (scrapeQuery j sc = j.as_content_id ↔ sc = JavScrapers.R18DEV) ∧
    (sc ≠ JavScrapers.R18DEV → scrapeQuery j sc = j.as_dvd_id) := by
  have hne := valid_dvd_ne_content (from_string_valid h)
  constructor
  · constructor
    · intro hq
      by_contra hsc
      rw [show scrapeQuery j sc = j.as_dvd_id from by unfold scrapeQuery; rw [if_neg hsc]] at hq
      exact hne hq
    · intro hsc
      unfold scrapeQuery
      rw [if_pos hsc]
  · intro hsc
    unfold scrapeQuery
    rw [if_neg hsc]

/-- C9 witness: the query selection applied at a concrete parsed Identifier
for a non-`R18DEV` scraper and for `R18DEV`. -/
theorem c9_query_witness :
    scrapeQuery javIdABCD123 JavScrapers.JAVDATABASE = javIdABCD123.as_dvd_id ∧
    scrapeQuery javIdABCD123 JavScrapers.R18DEV = javIdABCD123.as_content_id :=
  ⟨(c9_query (pyOfString "abcd123") javIdABCD123 (by decide) JavScrapers.JAVDATABASE).2
      (by decide),
   ((c9_query (pyOfString "abcd123") javIdABCD123 (by decide) JavScrapers.R18DEV).1).2 rfl⟩

/-- C10: the fixed post-trigger wait of `scrape_jav_scene` is 10 seconds; the
configurable `JAV_SCRAPE_TIMEOUT` constant (default 12) is never read, so the
whole run is unchanged under any reconfiguration of it. -/
theorem c10_sleep_constant :
    JAV_SCRAPE_TIMEOUT = 12 ∧
    (∀ cfg : Nat, scrape_sleep_seconds cfg = 10) ∧
    (∀ (cfg cfg' : Nat) (api : XbvrApi), mainRun cfg api = mainRun cfg' api) :=
  ⟨rfl, fun _ => rfl, fun cfg cfg' api => mainRun_cfg_irrel cfg cfg' api⟩
